import Mathlib

/-!
Verification development for the sidekick deployment tool
(`cmd/launch.go` and `cmd/preview/preview.go`).

The two cobra commands are shallowly embedded:
* the pure naming / routing / descriptor computations are Lean functions
  transcribed from the `fmt.Sprintf` expressions in the source;
* each command's imperative body is a function from an environment
  (interactive inputs and the success/failure of each external operation)
  to a `RunResult`: the ordered trace of pipeline stage events, the way
  the process terminated, and the transient local files still present
  on the filesystem when the process has terminated.

Go-semantics notes encoded explicitly below:
* `defer`red calls run on ordinary return and on `panic`, but NOT when the
  process terminates through `os.Exit` (which `log.Fatal*` also calls);
* `os.WriteFile` truncates and rewrites the whole file, creates it with the
  given permission bits when absent, and keeps the old mode when present.
-/

/-- The newline character, used by the `strings.Split(string(res), "\n")`
call in `launch.go`. -/
def newlineChar : Char := Char.ofNat 10

/-- The space character, used by the `strings.Contains(appName, " ")`
check in `launch.go`. -/
def spaceChar : Char := Char.ofNat 32

/-- `strings.Split s "\n"` from `launch.go:70`, on the character list of
the file contents.  Splitting the empty string yields one empty line,
exactly as in Go. -/
def splitLinesCh : List Char → List (List Char)
  | [] => [[]]
  | c :: rest =>
    let r := splitLinesCh rest
    if c = newlineChar then [] :: r
    else
      match r with
      | [] => [[c]]
      | line :: more => (c :: line) :: more

/-- `strings.HasPrefix line pre` from `launch.go:71`, on character lists. -/
def hasPrefixChars : List Char → List Char → Bool
  | [], _ => true
  | _ :: _, [] => false
  | p :: ps, c :: cs => p == c && hasPrefixChars ps cs

/-- The characters of the `"EXPOSE"` keyword scanned for in `launch.go:71`. -/
def exposeChars : List Char := ['E', 'X', 'P', 'O', 'S', 'E']

/-- `line[len(line)-4:]` from `launch.go:72`: the last four characters of
the line (Go slices bytes; on the ASCII `EXPOSE` lines this scan targets,
bytes and characters coincide). -/
def lastFourCh (l : List Char) : List Char := l.drop (l.length - 4)

/-- One iteration of the port-scanning loop of `launch.go:70-74`. -/
def exposeStep (acc line : List Char) : List Char :=
  if hasPrefixChars exposeChars line then lastFourCh line else acc

/-- The whole loop of `launch.go:69-74`: fold over the lines, keeping the
last four characters of the most recent line that starts with `EXPOSE`;
the accumulator starts as the empty string. -/
def portFromLines (lines : List (List Char)) : List Char :=
  lines.foldl exposeStep []

/-- The default port offered by the launch prompt (`launch.go:69-74`,
then used as default value of the prompt at `launch.go:85`). -/
def portFromDockerfile (content : String) : String :=
  ⟨portFromLines (splitLinesCh content.data)⟩

/-- The last line of the list satisfying `P`, if any (specification-side
helper used to state what the fold of `launch.go:70-74` computes). -/
def lastMatchingLine (P : List Char → Bool) : List (List Char) → Option (List Char)
  | [] => none
  | l :: ls =>
    match lastMatchingLine P ls with
    | some r => some r
    | none => if P l then some l else none

/-- The last `EXPOSE`-prefixed line of a Dockerfile's lines, if any. -/
def lastExposeLine (lines : List (List Char)) : Option (List Char) :=
  lastMatchingLine (hasPrefixChars exposeChars) lines

/-- The default primary domain from `launch.go:94`:
`fmt.Sprintf("%s.%s.sslip.io", appName, serverAddress)`. -/
def defaultPrimaryDomain (appName serverAddress : String) : String :=
  appName ++ "." ++ serverAddress ++ ".sslip.io"

/-- The domain returned by the interactive prompt of `launch.go:93-96`:
the prompt is pre-filled with `defaultPrimaryDomain`; an empty override
models the user accepting the default, a non-empty override models the
user typing a different domain. -/
def resolvedPrimaryDomain (appName serverAddress override : String) : String :=
  if override = "" then defaultPrimaryDomain appName serverAddress else override

/-- Preview image tag from `preview.go:99`:
`fmt.Sprintf("%s:%s", appConfig.Name, deployHash)`. -/
def previewImageName (name hash : String) : String := name ++ ":" ++ hash

/-- Preview service name from `preview.go:100`:
`fmt.Sprintf("%s-%s", appConfig.Name, deployHash)`. -/
def previewServiceName (name hash : String) : String := name ++ "-" ++ hash

/-- Preview public hostname from `preview.go:101`:
`fmt.Sprintf("%s.%s", deployHash, appConfig.Url)`. -/
def previewUrl (hash url : String) : String := hash ++ "." ++ url

/-- A compose service entry (`utils.DockerService` as used by both
commands; the launch command leaves `Environment` empty). -/
structure DockerService where
  Image : String
  Labels : List String
  Environment : List String
  Networks : List String
  deriving DecidableEq

/-- A compose network entry (`utils.DockerNetwork`). -/
structure DockerNetwork where
  External : Bool
  deriving DecidableEq

/-- A compose document (`utils.DockerComposeFile`); the Go maps have a
single key here, modelled as association lists. -/
structure DockerComposeFile where
  Services : List (String × DockerService)
  Networks : List (String × DockerNetwork)
  deriving DecidableEq

/-- The six labels of the primary service, `launch.go:102-109`, verbatim. -/
def launchServiceLabels (appName appDomain appPort : String) : List String :=
  [ "traefik.enable=true"
  , "traefik.http.routers." ++ appName ++ ".rule=Host(`" ++ appDomain ++ "`)"
  , "traefik.http.services." ++ appName ++ ".loadbalancer.server.port=" ++ appPort
  , "traefik.http.routers." ++ appName ++ ".tls=true"
  , "traefik.http.routers." ++ appName ++ ".tls.certresolver=default"
  , "traefik.docker.network=sidekick" ]

/-- The primary service descriptor, `launch.go:99-113`. -/
def launchService (dockerUsername appName appDomain appPort : String) : DockerService :=
  { Image := dockerUsername ++ "/" ++ appName
  , Labels := launchServiceLabels appName appDomain appPort
  , Environment := []
  , Networks := ["sidekick"] }

/-- The primary compose document, `launch.go:114-123`. -/
def launchCompose (dockerUsername appName appDomain appPort : String) : DockerComposeFile :=
  { Services := [(appName, launchService dockerUsername appName appDomain appPort)]
  , Networks := [("sidekick", ⟨true⟩)] }

/-- A preview-environment record entry (`utils.SidekickPreview`,
`preview.go:186-190`). -/
structure SidekickPreview where
  Url : String
  Image : String
  CreatedAt : String
  deriving DecidableEq

/-- The per-application persisted record as the preview command uses it
(`utils.SidekickAppConfig`; the nested `Env.File` field is flattened to
`EnvFile`).  `Port` holds the `fmt.Sprint`-formatted port value. -/
structure AppConfig where
  Name : String
  Url : String
  Port : String
  EnvFile : String
  PreviewEnvs : List (String × SidekickPreview)
  deriving DecidableEq

/-- The six labels of a preview service, `preview.go:104-111`, verbatim. -/
def previewServiceLabels (serviceName url port : String) : List String :=
  [ "traefik.enable=true"
  , "traefik.http.routers." ++ serviceName ++ ".rule=Host(`" ++ url ++ "`)"
  , "traefik.http.services." ++ serviceName ++ ".loadbalancer.server.port=" ++ port
  , "traefik.http.routers." ++ serviceName ++ ".tls=true"
  , "traefik.http.routers." ++ serviceName ++ ".tls.certresolver=default"
  , "traefik.docker.network=sidekick" ]

/-- The preview service descriptor, `preview.go:102-116`. -/
def previewService (cfg : AppConfig) (hash : String) (dockerEnv : List String) : DockerService :=
  { Image := previewImageName cfg.Name hash
  , Labels := previewServiceLabels (previewServiceName cfg.Name hash)
      (previewUrl hash cfg.Url) cfg.Port
  , Environment := dockerEnv
  , Networks := ["sidekick"] }

/-- The preview compose document, `preview.go:117-126`. -/
def previewCompose (cfg : AppConfig) (hash : String) (dockerEnv : List String) : DockerComposeFile :=
  { Services := [(previewServiceName cfg.Name hash, previewService cfg hash dockerEnv)]
  , Networks := [("sidekick", ⟨true⟩)] }

/-- The preview record entry built at `preview.go:186-190`. -/
def previewEntry (cfg : AppConfig) (hash now : String) : SidekickPreview :=
  { Url := "https://" ++ previewUrl hash cfg.Url
  , Image := previewImageName cfg.Name hash
  , CreatedAt := now }

/-- The record persisted by a preview deploy, `preview.go:191-195`:
the `PreviewEnvs` map is reassigned to a fresh map holding only the entry
for the deployed hash, then the whole config is rewritten. -/
def updatedPreviewConfig (cfg : AppConfig) (hash now : String) : AppConfig :=
  { cfg with PreviewEnvs := [(hash, previewEntry cfg hash now)] }

/-- Name, content and permission bits of a file on disk. -/
structure FileData where
  content : String
  perm : Nat
  deriving DecidableEq

/-- Go `os.WriteFile` semantics on a filesystem, modelled as a map from
path to optional file data: the whole content is replaced (truncate +
write); the permission argument is applied only when the file is created,
an existing file keeps its mode. -/
def writeFileFS (fs : String → Option FileData) (path content : String) (perm : Nat) :
    String → Option FileData :=
  fun q =>
    if q = path then
      some { content := content
           , perm := match fs path with
                     | some old => old.perm
                     | none => perm }
    else fs q

/-- The permission bits both record writes pass to `os.WriteFile`
(`launch.go:180`, `preview.go:195`): octal `644`. -/
def recordFilePerm : Nat := 0o644

/-- The deployment-record write `os.WriteFile("sidekick.yml", ymlData, 0644)`
(`launch.go:180`, `preview.go:194-195`). -/
def writeRecordFS (fs : String → Option FileData) (content : String) :
    String → Option FileData :=
  writeFileFS fs "sidekick.yml" content recordFilePerm

/-- Permission bits grant access to the file's owner only: all group and
other bits (the low six bits) are clear. -/
def ownerOnlyPerm (p : Nat) : Prop := p % 64 = 0

/-- Pipeline stage events, in the order the source emits them. -/
inductive PipelineEvent
  | descriptorWritten
  | sessionAcquired
  | imageBuilt
  | remoteDirCreated
  | transferred
  | remoteActivated
  | recordPersisted
  deriving DecidableEq

/-- How a command invocation terminated: ordinary return from the cobra
`Run` function, `os.Exit code` (used directly and by `log.Fatal*`), or a
`panic`. -/
inductive ExitKind
  | normal
  | exited (code : Nat)
  | panicked
  deriving DecidableEq

/-- Result of one command invocation: the ordered trace of stage events,
the termination kind, and the transient local files still on disk after
termination. -/
structure RunResult where
  trace : List PipelineEvent
  exitKind : ExitKind
  files : List String
  deriving DecidableEq

/-- Apply Go `defer` semantics at termination: deferred `os.Remove` calls
run on ordinary return and on panic, but `os.Exit` terminates the process
without running them. -/
def finishRun (trace : List PipelineEvent) (kind : ExitKind)
    (defers files : List String) : RunResult :=
  match kind with
  | .exited c => ⟨trace, .exited c, files⟩
  | k => ⟨trace, k, files.filter (fun f => ¬ f ∈ defers)⟩

/-- Success of the shell `mkdir` invoked over SSH: with `-p` a pre-existing
target directory is accepted; without it the command fails when the target
exists.  `ok` folds in every other failure cause (permissions, transport). -/
def mkdirSucceeds (withParents targetExists ok : Bool) : Bool :=
  ok && (withParents || !targetExists)

/-- Environment of one `sidekick launch` invocation: the interactive
inputs actually returned by the prompts and the success of each external
operation, in source order (`launch.go:42-186`). -/
structure LaunchEnv where
  /-- `viper.ReadInConfig` succeeds (`launch.go:47-50`; failure panics). -/
  configOk : Bool
  /-- The ssh-key helper script exits zero (`launch.go:52-56`; failure panics). -/
  sshKeysOk : Bool
  /-- What the app-name prompt returned (`launch.go:79`). -/
  appNameInput : String
  /-- What the port prompt returned (`launch.go:87`). -/
  appPortInput : String
  /-- `yaml.Marshal` of the compose document succeeds (`launch.go:124-128`). -/
  marshalOk : Bool
  /-- `os.WriteFile("docker-compose.yaml", ...)` succeeds (`launch.go:129-133`). -/
  writeComposeOk : Bool
  /-- `utils.LoginStage` succeeds (`launch.go:144-147`; failure panics). -/
  loginOk : Bool
  /-- The docker build-and-push script exits zero (`launch.go:152-156`). -/
  buildOk : Bool
  /-- The remote directory `<appname>` already exists (`launch.go:161`). -/
  remoteDirExists : Bool
  /-- The remote `mkdir` has no other failure cause. -/
  mkdirOk : Bool
  /-- `docker compose -p sidekick up -d` exits zero (`launch.go:168-171`). -/
  activateOk : Bool
  deriving DecidableEq

/-- The `sidekick launch` command body (`launch.go:42-186`) as a function
from its environment to the resulting trace, termination and leftover
transient files.  Each branch is one exit path of the Go code; `finishRun`
applies the deferred removal of `docker-compose.yaml` registered at
`launch.go:134`. -/
def launchRun (e : LaunchEnv) : RunResult :=
  if ¬ e.configOk then ⟨[], .panicked, []⟩
  else if ¬ e.sshKeysOk then ⟨[], .panicked, []⟩
  else if e.appNameInput = "" ∨ spaceChar ∈ e.appNameInput.data then
    -- `launch.go:80-83`: pterm error message, then `os.Exit(0)`
    ⟨[], .exited 0, []⟩
  else if e.appPortInput = "" then
    -- `launch.go:88-91`: pterm error message, then `os.Exit(0)`
    ⟨[], .exited 0, []⟩
  else if ¬ e.marshalOk then ⟨[], .normal, []⟩
  else if ¬ e.writeComposeOk then ⟨[], .normal, []⟩
  else
    -- `docker-compose.yaml` now exists; its removal is deferred (`launch.go:134`)
    let defers := ["docker-compose.yaml"]
    let files := ["docker-compose.yaml"]
    if ¬ e.loginOk then
      finishRun [.descriptorWritten] .panicked defers files
    else if ¬ e.buildOk then
      finishRun [.descriptorWritten, .sessionAcquired] .panicked defers files
    else if ¬ mkdirSucceeds false e.remoteDirExists e.mkdirOk then
      -- `launch.go:161-164`: plain `mkdir <appname>`, panic on error
      finishRun [.descriptorWritten, .sessionAcquired, .imageBuilt] .panicked defers files
    else if ¬ e.activateOk then
      finishRun [.descriptorWritten, .sessionAcquired, .imageBuilt,
        .remoteDirCreated, .transferred] .panicked defers files
    else
      finishRun [.descriptorWritten, .sessionAcquired, .imageBuilt,
        .remoteDirCreated, .transferred, .remoteActivated, .recordPersisted]
        .normal defers files

/-- Environment of one `sidekick preview` invocation
(`preview.go:38-204`). -/
structure PreviewEnv where
  /-- `utils.ViperInit` succeeds (`preview.go:39-42`; failure exits 1). -/
  configOk : Bool
  /-- `utils.LoadAppConfig` succeeds (`preview.go:43-47`; failure `log.Fatalln`). -/
  appConfigOk : Bool
  /-- The git tree check printed `all good` (`preview.go:49-56`; else exits 1). -/
  gitClean : Bool
  /-- `git rev-parse --short HEAD` succeeds (`preview.go:58-63`; failure panics). -/
  hashOk : Bool
  /-- The loaded per-application record. -/
  appConfig : AppConfig
  /-- `utils.Login` succeeds (`preview.go:79-83`; failure panics). -/
  loginOk : Bool
  /-- `utils.HandleEnvFile` succeeds when an env file is configured
  (`preview.go:91-96`; failure panics). -/
  envOk : Bool
  /-- `yaml.Marshal` of the compose document succeeds (`preview.go:127-131`). -/
  marshalOk : Bool
  /-- `os.WriteFile("docker-compose.yaml", ...)` succeeds (`preview.go:132-136`). -/
  writeComposeOk : Bool
  /-- The docker build script exits zero (`preview.go:141-147`; failure `os.Exit(1)`). -/
  buildOk : Bool
  /-- The image-move script exits zero (`preview.go:149-155`; failure `log.Fatalf`). -/
  moveOk : Bool
  /-- The remote `docker load` exits zero (`preview.go:156-158`; failure `log.Fatal`). -/
  loadOk : Bool
  /-- The remote tar cleanup exits zero (`preview.go:159-161`; failure `log.Fatal`). -/
  rmTarOk : Bool
  /-- The remote directory `<appname>/preview/<hash>` already exists
  (`preview.go:166`). -/
  remoteDirExists : Bool
  /-- The remote `mkdir -p` has no other failure cause. -/
  mkdirOk : Bool
  /-- The remote compose-up command exits zero (`preview.go:176-184`; failure panics). -/
  activateOk : Bool
  deriving DecidableEq

/-- The `sidekick preview` command body (`preview.go:38-204`) as a
function from its environment to the resulting trace, termination and
leftover transient files.  `encrypted.env` is created only when an env
file is configured (`preview.go:91-96`); its removal is deferred
unconditionally (`preview.go:97`), and `docker-compose.yaml`'s removal is
deferred at `preview.go:137`.  The `os.Exit`/`log.Fatal` failure paths
bypass both deferred removals. -/
def previewRun (e : PreviewEnv) : RunResult :=
  if ¬ e.configOk then ⟨[], .exited 1, []⟩
  else if ¬ e.appConfigOk then ⟨[], .exited 1, []⟩
  else if ¬ e.gitClean then ⟨[], .exited 1, []⟩
  else if ¬ e.hashOk then ⟨[], .panicked, []⟩
  else if ¬ e.loginOk then ⟨[], .panicked, []⟩
  else if e.appConfig.EnvFile ≠ "" ∧ ¬ e.envOk then
    -- `preview.go:92-95`: panic before the `defer` of line 97 is registered
    ⟨[.sessionAcquired], .panicked, []⟩
  else
    let files0 := if e.appConfig.EnvFile ≠ "" then ["encrypted.env"] else []
    let defers0 := ["encrypted.env"]
    if ¬ e.marshalOk then
      finishRun [.sessionAcquired] .normal defers0 files0
    else if ¬ e.writeComposeOk then
      finishRun [.sessionAcquired] .normal defers0 files0
    else
      let files1 := "docker-compose.yaml" :: files0
      let defers1 := "docker-compose.yaml" :: defers0
      if ¬ e.buildOk then
        finishRun [.sessionAcquired, .descriptorWritten] (.exited 1) defers1 files1
      else if ¬ e.moveOk then
        finishRun [.sessionAcquired, .descriptorWritten, .imageBuilt] (.exited 1)
          defers1 files1
      else if ¬ e.loadOk then
        finishRun [.sessionAcquired, .descriptorWritten, .imageBuilt] (.exited 1)
          defers1 files1
      else if ¬ e.rmTarOk then
        finishRun [.sessionAcquired, .descriptorWritten, .imageBuilt] (.exited 1)
          defers1 files1
      else if ¬ mkdirSucceeds true e.remoteDirExists e.mkdirOk then
        -- `preview.go:166-169`: `mkdir -p`, panic on error
        finishRun [.sessionAcquired, .descriptorWritten, .imageBuilt] .panicked
          defers1 files1
      else if ¬ e.activateOk then
        finishRun [.sessionAcquired, .descriptorWritten, .imageBuilt,
          .remoteDirCreated, .transferred] .panicked defers1 files1
      else
        finishRun [.sessionAcquired, .descriptorWritten, .imageBuilt,
          .remoteDirCreated, .transferred, .remoteActivated, .recordPersisted]
          .normal defers1 files1

/-- The canonical order of the launch pipeline's stage events. -/
def launchStageOrder : List PipelineEvent :=
  [.descriptorWritten, .sessionAcquired, .imageBuilt, .remoteDirCreated,
   .transferred, .remoteActivated, .recordPersisted]

/-- The canonical order of the preview pipeline's stage events. -/
def previewStageOrder : List PipelineEvent :=
  [.sessionAcquired, .descriptorWritten, .imageBuilt, .remoteDirCreated,
   .transferred, .remoteActivated, .recordPersisted]

/-- Modelled from the spec: the six routing directives of §4.1 and §6 —
enable routing, host-match rule bound to the resolved hostname,
load-balancer target port bound to the declared container port, TLS
enable, named TLS certificate resolver, shared-network membership — for
a given router/service name, hostname and port. -/
def specRoutingLabels (router host port : String) : List String :=
  [ "traefik.enable=true"
  , "traefik.http.routers." ++ router ++ ".rule=Host(`" ++ host ++ "`)"
  , "traefik.http.services." ++ router ++ ".loadbalancer.server.port=" ++ port
  , "traefik.http.routers." ++ router ++ ".tls=true"
  , "traefik.http.routers." ++ router ++ ".tls.certresolver=default"
  , "traefik.docker.network=sidekick" ]

/-- Projection: `finishRun` never alters the event trace. -/
theorem finishRun_trace (t : List PipelineEvent) (k : ExitKind) (d f : List String) :
    (finishRun t k d f).trace = t := by
  cases k <;> rfl

/-- Projection: `finishRun` never alters the termination kind. -/
theorem finishRun_exitKind (t : List PipelineEvent) (k : ExitKind) (d f : List String) :
    (finishRun t k d f).exitKind = k := by
  cases k <;> rfl

/-- The port-scanning fold of `launch.go:70-74` computes the last four
characters of the last `EXPOSE`-prefixed line, or the accumulator when no
line matches. -/
theorem foldl_exposeStep (lines : List (List Char)) (acc : List Char) :
    lines.foldl exposeStep acc =
      match lastMatchingLine (hasPrefixChars exposeChars) lines with
      | none => acc
      | some line => lastFourCh line := by
  induction lines generalizing acc with
  | nil => rfl
  | cons l ls ih =>
    rw [List.foldl_cons, ih]
    cases hls : lastMatchingLine (hasPrefixChars exposeChars) ls with
    | some r => simp [lastMatchingLine, hls]
    | none =>
      by_cases hp : hasPrefixChars exposeChars l = true
      · simp [lastMatchingLine, hls, hp, exposeStep]
      · simp [lastMatchingLine, hls, hp, exposeStep]

/-- C1: for every app name `n` and revision hash `h`, a preview deployment
uses service name `n-h`, image tag `n:h` and public hostname `h.<appUrl>`;
the compose document's single service is keyed by `n-h` with image `n:h`;
and the persisted record's `previewEnvironments[h].image` equals `n:h`. -/
theorem C1_preview_naming (cfg : AppConfig) (h now : String) (denv : List String) :
    previewServiceName cfg.Name h = cfg.Name ++ "-" ++ h ∧
    previewImageName cfg.Name h = cfg.Name ++ ":" ++ h ∧
    previewUrl h cfg.Url = h ++ "." ++ cfg.Url ∧
    (previewCompose cfg h denv).Services =
      [(cfg.Name ++ "-" ++ h, previewService cfg h denv)] ∧
    (previewService cfg h denv).Image = cfg.Name ++ ":" ++ h ∧
    List.lookup h (updatedPreviewConfig cfg h now).PreviewEnvs =
      some (previewEntry cfg h now) ∧
    (previewEntry cfg h now).Image = cfg.Name ++ ":" ++ h := by
  refine ⟨rfl, rfl, rfl, rfl, rfl, ?_, rfl⟩
  simp [updatedPreviewConfig, List.lookup]

/-- C2 counterexample: for the valid app name `app` (non-empty, without
whitespace) and server address `203.0.113.7`, with no interactive override,
the resolved primary hostname is `app.203.0.113.7.sslip.io`, not
`app.203.0.113.7` as the claim states: the code appends the `.sslip.io`
wildcard-DNS suffix (`launch.go:94`). -/
theorem C2_counterexample :
    "app" ≠ "" ∧ ¬ spaceChar ∈ "app".data ∧
    resolvedPrimaryDomain "app" "203.0.113.7" "" ≠ "app" ++ "." ++ "203.0.113.7" ∧
    resolvedPrimaryDomain "app" "203.0.113.7" "" = "app.203.0.113.7.sslip.io" := by
  decide

/-- C2 (amended): for every valid app name (non-empty, no whitespace) and
every server address, when the user supplies no interactive override, the
resolved primary hostname equals `<name>.<serverAddress>.sslip.io`. -/
theorem C2_primary_domain (appName serverAddress : String)
    (h1 : appName ≠ "") (h2 : ¬ spaceChar ∈ appName.data) :
    resolvedPrimaryDomain appName serverAddress "" =
      appName ++ "." ++ serverAddress ++ ".sslip.io" := by
  simp [resolvedPrimaryDomain, defaultPrimaryDomain]

/-- Witness for C2: the amended hostname rule evaluated at the valid name
`app` and server address `1.2.3.4`. -/
theorem C2_primary_domain_witness :
    "app" ≠ "" ∧ ¬ spaceChar ∈ "app".data ∧
    resolvedPrimaryDomain "app" "1.2.3.4" "" = "app" ++ "." ++ "1.2.3.4" ++ ".sslip.io" :=
  ⟨by decide, by decide, C2_primary_domain "app" "1.2.3.4" (by decide) (by decide)⟩

/-- C3: every generated service descriptor — primary and preview — carries
exactly six routing labels, in order: routing enable; host-match rule on
the resolved hostname; load-balancer port on the declared container port;
TLS enable; named TLS certificate resolver; shared-network membership.
Both label lists coincide with the spec-side `specRoutingLabels` template
instantiated at the respective router name, hostname and port. -/
theorem C3_routing_labels (u n d p : String) (cfg : AppConfig) (h : String)
    (denv : List String) :
    (launchService u n d p).Labels = specRoutingLabels n d p ∧
    (launchService u n d p).Labels.length = 6 ∧
    (previewService cfg h denv).Labels =
      specRoutingLabels (previewServiceName cfg.Name h) (previewUrl h cfg.Url) cfg.Port ∧
    (previewService cfg h denv).Labels.length = 6 :=
  ⟨rfl, rfl, rfl, rfl⟩

/-- C6: after a preview deploy for hash `h`, the persisted record's preview
map is exactly the singleton for `h`: the map is fully replaced
(`preview.go:191-192`), so previously recorded entries are dropped. -/
theorem C6_preview_map_replaced (cfg : AppConfig) (h now : String) :
    (updatedPreviewConfig cfg h now).PreviewEnvs = [(h, previewEntry cfg h now)] ∧
    (updatedPreviewConfig cfg h now).PreviewEnvs.map Prod.fst = [h] :=
  ⟨rfl, rfl⟩

/-- C10: when the Dockerfile has at least one line beginning with `EXPOSE`,
the default port offered by the launch prompt is the last four characters
of the last such line — not the token following the keyword. -/
theorem C10_expose_default (content : String) (line : List Char)
    (h : lastExposeLine (splitLinesCh content.data) = some line) :
    portFromDockerfile content = ⟨lastFourCh line⟩ := by
  unfold portFromDockerfile portFromLines
  rw [foldl_exposeStep]
  unfold lastExposeLine at h
  rw [h]

/-- Witness for C10: on `FROM node\nEXPOSE 80` the last `EXPOSE` line is
`EXPOSE 80` and the offered default is its last four characters `E 80` —
including the `E` of the keyword and the separating space, not the port
token `80`. -/
theorem C10_expose_default_witness :
    lastExposeLine (splitLinesCh "FROM node\nEXPOSE 80".data) =
      some "EXPOSE 80".data ∧
    portFromDockerfile "FROM node\nEXPOSE 80" = "E 80" ∧
    portFromDockerfile "FROM node\nEXPOSE 80" ≠ "80" :=
  ⟨by decide,
   (C10_expose_default "FROM node\nEXPOSE 80" "EXPOSE 80".data (by decide)).trans
     (by decide),
   by decide⟩

/-- A fully successful `launch` environment: valid interactive inputs and
every external operation succeeding, with no pre-existing remote directory. -/
def launchOkEnv : LaunchEnv :=
  { configOk := true, sshKeysOk := true, appNameInput := "app", appPortInput := "3000"
  , marshalOk := true, writeComposeOk := true, loginOk := true, buildOk := true
  , remoteDirExists := false, mkdirOk := true, activateOk := true }

/-- `launchOkEnv` with the app-name prompt returning the empty string. -/
def launchEmptyNameEnv : LaunchEnv := { launchOkEnv with appNameInput := "" }

/-- `launchOkEnv` with the port prompt returning the empty string. -/
def launchEmptyPortEnv : LaunchEnv := { launchOkEnv with appPortInput := "" }

/-- `launchOkEnv` with the remote target directory already existing. -/
def launchDirExistsEnv : LaunchEnv := { launchOkEnv with remoteDirExists := true }

/-- A fully successful `preview` environment with an env file configured. -/
def previewOkEnv : PreviewEnv :=
  { configOk := true, appConfigOk := true, gitClean := true, hashOk := true
  , appConfig := { Name := "app", Url := "app.203.0.113.7.sslip.io", Port := "3000"
                 , EnvFile := ".env", PreviewEnvs := [] }
  , loginOk := true, envOk := true, marshalOk := true, writeComposeOk := true
  , buildOk := true, moveOk := true, loadOk := true, rmTarOk := true
  , remoteDirExists := false, mkdirOk := true, activateOk := true }

/-- `previewOkEnv` with the docker build script failing. -/
def previewBuildFailEnv : PreviewEnv := { previewOkEnv with buildOk := false }

/-- `previewOkEnv` with the remote preview directory already existing. -/
def previewDirExistsEnv : PreviewEnv := { previewOkEnv with remoteDirExists := true }

/-- C4 counterexample: in a fully successful `launch` run the compose
descriptor is written to the local transient path first (`launch.go:129`),
before the remote session is acquired (`launch.go:144`) and before the
image build completes (`launch.go:152-156`) — refuting the claimed
`Authenticated → ImageReady → DescriptorWritten` order. -/
theorem C4_counterexample :
    (launchRun launchOkEnv).trace = launchStageOrder ∧
    (launchRun launchOkEnv).exitKind = .normal ∧
    (launchRun launchOkEnv).trace.indexOf .descriptorWritten <
      (launchRun launchOkEnv).trace.indexOf .sessionAcquired ∧
    (launchRun launchOkEnv).trace.indexOf .descriptorWritten <
      (launchRun launchOkEnv).trace.indexOf .imageBuilt := by
  decide

/-- C4 (amended): both pipelines are strictly sequential, but the order
differs from the claim: `launch` writes the descriptor before acquiring
the session and building the image, `preview` acquires the session, then
writes the descriptor, then builds; in both, remote directory creation
precedes transfer, which precedes remote activation, which precedes record
persistence.  Every run's trace is a prefix of the respective order. -/
theorem C4_stage_order :
    (∀ e : LaunchEnv, (launchRun e).trace <+: launchStageOrder) ∧
    (∀ e : PreviewEnv, (previewRun e).trace <+: previewStageOrder) := by
  constructor
  · intro e
    unfold launchRun
    by_cases c1 : e.configOk = true
    case neg => simp [c1]
    by_cases c2 : e.sshKeysOk = true
    case neg => simp [c1, c2]
    by_cases c3 : e.appNameInput = "" ∨ spaceChar ∈ e.appNameInput.data
    case pos => simp [c1, c2, c3]
    by_cases c4 : e.appPortInput = ""
    case pos => simp [c1, c2, c3, c4]
    by_cases c5 : e.marshalOk = true
    case neg => simp [c1, c2, c3, c4, c5]
    by_cases c6 : e.writeComposeOk = true
    case neg => simp [c1, c2, c3, c4, c5, c6]
    by_cases c7 : e.loginOk = true
    case neg =>
      simp [c1, c2, c3, c4, c5, c6, c7, finishRun_trace]
      try decide
    by_cases c8 : e.buildOk = true
    case neg =>
      simp [c1, c2, c3, c4, c5, c6, c7, c8, finishRun_trace]
      try decide
    by_cases c9 : mkdirSucceeds false e.remoteDirExists e.mkdirOk = true
    case neg =>
      simp [c1, c2, c3, c4, c5, c6, c7, c8, c9, finishRun_trace]
      try decide
    by_cases c10 : e.activateOk = true
    case neg =>
      simp [c1, c2, c3, c4, c5, c6, c7, c8, c9, c10, finishRun_trace]
      try decide
    simp [c1, c2, c3, c4, c5, c6, c7, c8, c9, c10, finishRun_trace]
    try decide
  · intro e
    unfold previewRun
    by_cases c1 : e.configOk = true
    case neg => simp [c1]
    by_cases c2 : e.appConfigOk = true
    case neg => simp [c1, c2]
    by_cases c3 : e.gitClean = true
    case neg => simp [c1, c2, c3]
    by_cases c4 : e.hashOk = true
    case neg => simp [c1, c2, c3, c4]
    by_cases c5 : e.loginOk = true
    case neg => simp [c1, c2, c3, c4, c5]
    by_cases c7 : e.marshalOk = true
    case neg =>
      simp [c1, c2, c3, c4, c5, c7]
      split
      · decide
      · rw [finishRun_trace]; decide
    by_cases c8 : e.writeComposeOk = true
    case neg =>
      simp [c1, c2, c3, c4, c5, c7, c8]
      split
      · decide
      · rw [finishRun_trace]; decide
    by_cases c9 : e.buildOk = true
    case neg =>
      simp [c1, c2, c3, c4, c5, c7, c8, c9]
      split
      · decide
      · rw [finishRun_trace]; decide
    by_cases c10 : e.moveOk = true
    case neg =>
      simp [c1, c2, c3, c4, c5, c7, c8, c9, c10]
      split
      · decide
      · rw [finishRun_trace]; decide
    by_cases c11 : e.loadOk = true
    case neg =>
      simp [c1, c2, c3, c4, c5, c7, c8, c9, c10, c11]
      split
      · decide
      · rw [finishRun_trace]; decide
    by_cases c12 : e.rmTarOk = true
    case neg =>
      simp [c1, c2, c3, c4, c5, c7, c8, c9, c10, c11, c12]
      split
      · decide
      · rw [finishRun_trace]; decide
    by_cases c13 : mkdirSucceeds true e.remoteDirExists e.mkdirOk = true
    case neg =>
      simp [c1, c2, c3, c4, c5, c7, c8, c9, c10, c11, c12, c13]
      split
      · decide
      · rw [finishRun_trace]; decide
    by_cases c14 : e.activateOk = true
    case neg =>
      simp [c1, c2, c3, c4, c5, c7, c8, c9, c10, c11, c12, c13, c14]
      split
      · decide
      · rw [finishRun_trace]; decide
    simp [c1, c2, c3, c4, c5, c7, c8, c9, c10, c11, c12, c13, c14]
    split
    · decide
    · rw [finishRun_trace]; decide

/-- C5: the claim says transient local artifacts are absent after every
run; but when the preview docker build fails the process terminates via
`os.Exit(1)` (`preview.go:146`), which skips the deferred removals of
`preview.go:97` and `preview.go:137`, leaving both `docker-compose.yaml`
and `encrypted.env` on disk.  This run evaluates the code at that failing
input. -/
theorem C5_transient_leak :
    previewRun previewBuildFailEnv =
      ⟨[.sessionAcquired, .descriptorWritten], .exited 1,
        ["docker-compose.yaml", "encrypted.env"]⟩ := by
  decide

/-- C7 counterexample: with the app-name prompt returning the empty string,
the launch process terminates through `os.Exit(0)` (`launch.go:82`) — exit
status zero, not non-zero as the claim states (the side-effect part of the
claim holds: no events, no transient files). -/
theorem C7_counterexample :
    launchRun launchEmptyNameEnv = ⟨[], .exited 0, []⟩ := by
  decide

/-- C7 (amended): when interactive input yields an empty app name or an
empty port, the launch process terminates with exit status zero
(`os.Exit(0)`, `launch.go:82` and `launch.go:90`), having written no
compose document, created no remote session, and performed no record
mutation. -/
theorem C7_empty_input (e : LaunchEnv)
    (h1 : e.configOk = true) (h2 : e.sshKeysOk = true)
    (h3 : e.appNameInput = "" ∨ e.appPortInput = "") :
    launchRun e = ⟨[], .exited 0, []⟩ := by
  unfold launchRun
  rcases h3 with h3 | h3
  · simp [h1, h2, h3]
  · by_cases hn : e.appNameInput = "" ∨ spaceChar ∈ e.appNameInput.data
    · simp [h1, h2, hn]
    · simp [h1, h2, hn, h3]

/-- Witness for C7: the amended behavior evaluated at a concrete
environment whose port prompt returns the empty string. -/
theorem C7_empty_input_witness :
    launchRun launchEmptyPortEnv = ⟨[], .exited 0, []⟩ :=
  C7_empty_input launchEmptyPortEnv rfl rfl (Or.inr rfl)

/-- C8 counterexample: a `launch` run in which every operation succeeds but
the remote target directory already exists aborts with a panic after the
image build — the plain `mkdir <appname>` of `launch.go:161` fails on a
pre-existing directory and `launch.go:163` panics — refuting idempotence
for the primary deployment kind. -/
theorem C8_counterexample :
    launchRun launchDirExistsEnv =
      ⟨[.descriptorWritten, .sessionAcquired, .imageBuilt], .panicked, []⟩ := by
  decide

/-- C8 (amended): remote directory creation is idempotent for preview
deployments only — `mkdir -p` (`preview.go:166`) accepts a pre-existing
directory and the pipeline runs to completion — while for primary
deployments the plain `mkdir` (`launch.go:161`) fails on a pre-existing
directory, so the launch pipeline never records the directory as created
and never reaches remote activation. -/
theorem C8_mkdir_idempotence (e : PreviewEnv) (l : LaunchEnv)
    (he : e.configOk = true ∧ e.appConfigOk = true ∧ e.gitClean = true ∧
      e.hashOk = true ∧ e.loginOk = true ∧ e.envOk = true ∧ e.marshalOk = true ∧
      e.writeComposeOk = true ∧ e.buildOk = true ∧ e.moveOk = true ∧
      e.loadOk = true ∧ e.rmTarOk = true ∧ e.mkdirOk = true ∧
      e.remoteDirExists = true ∧ e.activateOk = true)
    (hl : l.configOk = true ∧ l.sshKeysOk = true ∧ l.marshalOk = true ∧
      l.writeComposeOk = true ∧ l.loginOk = true ∧ l.buildOk = true ∧
      l.mkdirOk = true ∧ l.remoteDirExists = true) :
    (previewRun e).trace = previewStageOrder ∧
    (previewRun e).exitKind = .normal ∧
    PipelineEvent.remoteDirCreated ∈ (previewRun e).trace ∧
    PipelineEvent.remoteDirCreated ∉ (launchRun l).trace ∧
    PipelineEvent.remoteActivated ∉ (launchRun l).trace := by
  obtain ⟨e1, e2, e3, e4, e5, e6, e7, e8, e9, e10, e11, e12, e13, e14, e15⟩ := he
  obtain ⟨l1, l2, l3, l4, l5, l6, l7, l8⟩ := hl
  have hp : previewRun e =
      finishRun previewStageOrder .normal
        ("docker-compose.yaml" :: ["encrypted.env"])
        ("docker-compose.yaml" ::
          (if e.appConfig.EnvFile ≠ "" then ["encrypted.env"] else [])) := by
    unfold previewRun
    simp [e1, e2, e3, e4, e5, e6, e7, e8, e9, e10, e11, e12, e13, e14, e15,
      mkdirSucceeds, previewStageOrder]
  have hl' : launchRun l = ⟨[], .exited 0, []⟩ ∨
      launchRun l = finishRun [.descriptorWritten, .sessionAcquired, .imageBuilt]
        .panicked ["docker-compose.yaml"] ["docker-compose.yaml"] := by
    unfold launchRun
    by_cases hn : l.appNameInput = "" ∨ spaceChar ∈ l.appNameInput.data
    · left; simp [l1, l2, hn]
    · by_cases hport : l.appPortInput = ""
      · left; simp [l1, l2, hn, hport]
      · right
        simp [l1, l2, hn, hport, l3, l4, l5, l6, l7, l8, mkdirSucceeds]
  refine ⟨?_, ?_, ?_, ?_, ?_⟩
  · rw [hp, finishRun_trace]
  · rw [hp, finishRun_exitKind]
  · rw [hp, finishRun_trace]; decide
  · rcases hl' with h | h
    · rw [h]; decide
    · rw [h, finishRun_trace]; decide
  · rcases hl' with h | h
    · rw [h]; decide
    · rw [h, finishRun_trace]; decide

/-- Witness for C8: the amended idempotence statement evaluated at
concrete all-success environments with a pre-existing remote directory. -/
theorem C8_mkdir_idempotence_witness :
    (previewRun previewDirExistsEnv).trace = previewStageOrder ∧
    (previewRun previewDirExistsEnv).exitKind = .normal ∧
    PipelineEvent.remoteDirCreated ∈ (previewRun previewDirExistsEnv).trace ∧
    PipelineEvent.remoteDirCreated ∉ (launchRun launchDirExistsEnv).trace ∧
    PipelineEvent.remoteActivated ∉ (launchRun launchDirExistsEnv).trace :=
  C8_mkdir_idempotence previewDirExistsEnv launchDirExistsEnv
    ⟨rfl, rfl, rfl, rfl, rfl, rfl, rfl, rfl, rfl, rfl, rfl, rfl, rfl, rfl, rfl⟩
    ⟨rfl, rfl, rfl, rfl, rfl, rfl, rfl, rfl⟩

/-- C9 counterexample: the record write passes permission bits octal `644`
(decimal 420) to `os.WriteFile` (`launch.go:180`, `preview.go:195`);
creating the record on an empty filesystem yields a file whose group and
other permission bits are not all clear (`0o644 % 64 = 0o44 ≠ 0`), so the
fixed permissions do not restrict access to the file's owner only. -/
theorem C9_counterexample :
    writeRecordFS (fun _ => none) "record" "sidekick.yml" =
      some ⟨"record", recordFilePerm⟩ ∧
    recordFilePerm = 420 ∧
    ¬ ownerOnlyPerm recordFilePerm := by
  refine ⟨?_, by decide, by unfold ownerOnlyPerm; decide⟩
  simp [writeRecordFS, writeFileFS]

/-- C9 (amended): every write of the persisted Deployment Record is a full
overwrite — afterwards the record file exists and its content is exactly
the marshalled record, whatever was there before — and it creates the file
if absent with the fixed permission bits octal `644` (owner read/write,
group and others read), which are not owner-only. -/
theorem C9_record_write (fs : String → Option FileData) (content : String) :
    (writeRecordFS fs content "sidekick.yml").map FileData.content = some content ∧
    (fs "sidekick.yml" = none →
      writeRecordFS fs content "sidekick.yml" = some ⟨content, recordFilePerm⟩) ∧
    ¬ ownerOnlyPerm recordFilePerm := by
  refine ⟨?_, ?_, by unfold ownerOnlyPerm; decide⟩
  · simp [writeRecordFS, writeFileFS]
  · intro h
    simp [writeRecordFS, writeFileFS, h]

/-- Witness for C9: the amended record-write behavior evaluated on the
empty filesystem. -/
theorem C9_record_write_witness :
    (writeRecordFS (fun _ => none) "rec" "sidekick.yml").map FileData.content =
      some "rec" ∧
    writeRecordFS (fun _ => none) "rec" "sidekick.yml" =
      some ⟨"rec", recordFilePerm⟩ :=
  ⟨(C9_record_write (fun _ => none) "rec").1,
   (C9_record_write (fun _ => none) "rec").2.1 rfl⟩
